import Mathlib

/-!
Verification of the Azure AD social-login identity-resolution pipeline of
this repository (`pkg/login/social/azuread_oauth.go`).

The implementation file itself is not among the sampled sources; only its
test file `pkg/login/social/azuread_oauth_test.go` is.  The definitions
below are therefore modelled from the specification's description of the
pipeline (sections 4.3-4.6 of the spec), and wherever the repository's own
test file pins concrete behaviour at specific inputs, the model follows the
test file (the tests are the authoritative code in the sample).  Each
definition's doc comment records what it models.

Scope: the post-token-verification portion of the pipeline — effective
email extraction, group resolution (inline / indirect source / forced
remote fetch), allow-list policy checks, role-and-admin decision, and
identity assembly — plus provider construction from the raw settings map.
Token-signature verification itself (JWKS, RSA) is out of scope of the
claims treated here.
-/

/-- Modelled from the spec: ASCII case-insensitive string comparison, the
model of Go's `strings.EqualFold` as used by role matching ("Role matching
is case-insensitive").  All role names in the code are ASCII, so simple
per-character lower-casing is faithful. -/
def eqFold (a b : String) : Bool :=
  a.data.map Char.toLower == b.data.map Char.toLower

/-- Modelled from the spec: the indirect claim-source descriptor
`{sourceName → endpoint URL}` (spec section 3, `IndirectClaimSource`);
an association list from source name to endpoint, mirroring the test
file's `map[string]claimSource{name: {Endpoint: url}}`. -/
def lookupSource : List (String × String) → String → Option String
  | [], _ => none
  | (k, v) :: rest, key => if k = key then some v else lookupSource rest key

/-- Modelled from the spec: the structured claims record decoded from a
verified token (spec section 3, `Claims`; test file's `azureClaims`).
`claimNamesGroups` is the `_claim_names.groups` source name (empty string
when absent) and `claimSources` maps source names to endpoints. -/
structure AzureClaims where
  email : String
  preferredUsername : String
  roles : List String
  groups : List String
  name : String
  id : String
  claimNamesGroups : String
  claimSources : List (String × String)
  tenantID : String
deriving Repr, DecidableEq

/-- Modelled from the spec: the error taxonomy of section 7, restricted to
the errors reachable in the post-verification pipeline. -/
inductive AzError where
  | NoEmailError
  | GroupFetchError
  | GroupNotAllowedError
  | OrganizationNotAllowedError
  | NoMatchingRoleError
deriving Repr, DecidableEq

/-- Modelled from the spec: the output identity record (spec section 3,
`Identity`; test file's `models.BasicUserInfo`).  `isGrafanaAdmin` is the
three-valued admin flag: `none` means "do not touch existing admin
status". -/
structure BasicUserInfo where
  id : String
  name : String
  email : String
  login : String
  role : String
  isGrafanaAdmin : Option Bool
  groups : List String
deriving Repr, DecidableEq

/-- Modelled from the spec: the provider's derived static settings (spec
section 3, `ProviderConfig`), as produced by `NewAzureADProvider`. -/
structure SocialAzureAD where
  allowAssignGrafanaAdmin : Bool
  forceUseGraphAPI : Bool
  roleAttributeStrict : Bool
  allowedGroups : List String
  allowedOrganizations : List String
  autoAssignOrgRole : String
deriving Repr, DecidableEq

/-- Modelled from the spec: a response to an authenticated group-source
GET — its HTTP status and the parsed `Value` field of the JSON body
(`none` when the body is malformed). -/
structure HttpResp where
  status : Nat
  value : Option (List String)
deriving Repr, DecidableEq

/-- Modelled from the spec: the consumed HTTP-client capability — issuing
an authenticated GET to an endpoint (first argument) with a bearer token
in the Authorization header (second argument). -/
abbrev HttpClient : Type := String → String → HttpResp

/-- Modelled from the spec (section 4.3, Claims Extractor): the effective
email — prefer the email field, fall back to preferred-username when the
email field is empty. -/
def extractEmail (claims : AzureClaims) : String :=
  if claims.email = "" then claims.preferredUsername else claims.email

/-- Modelled from the spec: case-insensitive membership of a role name in
the role-claim list (the `hasRole` scan of the role engine). -/
def hasRole (roles : List String) (role : String) : Bool :=
  roles.any (fun item => eqFold item role)

/-- Modelled from the spec (section 4.5 step 2) with the GrafanaAdmin
branch pinned by the repository's test file: scan the role-claim list
case-insensitively with priority GrafanaAdmin, then Admin > Editor >
Viewer.  The test file (azuread_oauth_test.go, "Grafana Admin and Editor
roles in claim", "Grafana Admin but setting is disabled") expects the
organizational role `Admin` whenever `GrafanaAdmin` is claimed, together
with the elevation flag; an unrecognised list yields `none` (strict-mode
failure or default-role fallback is decided by the caller). -/
def roleAndAdminFromClaims (roles : List String) : Option (String × Bool) :=
  if hasRole roles "GrafanaAdmin" then some ("Admin", true)
  else if hasRole roles "Admin" then some ("Admin", false)
  else if hasRole roles "Editor" then some ("Editor", false)
  else if hasRole roles "Viewer" then some ("Viewer", false)
  else none

/-- Modelled from the spec (section 4.5 step 2): when no recognised role
matches, strict mode fails with `NoMatchingRoleError` (an empty role list
also fails under strict mode); otherwise fall back to the statically
configured default organizational role. -/
def decideRoleAndAdmin (s : SocialAzureAD) (roles : List String) :
    Except AzError (String × Bool) :=
  (roleAndAdminFromClaims roles).elim
    (if s.roleAttributeStrict then .error .NoMatchingRoleError
     else .ok (s.autoAssignOrgRole, false))
    Except.ok

/-- Modelled from the spec: the handcrafted Graph API member-groups URL
used by the forced remote fetch when the claims carry no indirect source
endpoint. -/
def graphMemberGroupsURL (claims : AzureClaims) : String :=
  "https://graph.microsoft.com/v1.0/users/" ++ claims.id ++ "/getMemberGroups"

/-- Modelled from the spec (sections 3 and 4.4): the indirect claim-source
endpoint for groups, when the claims carry one — the `_claim_names.groups`
source name must be non-empty and resolve through `_claim_sources` to a
non-empty endpoint. -/
def indirectEndpoint (claims : AzureClaims) : Option String :=
  if claims.claimNamesGroups = "" then none
  else
    if (lookupSource claims.claimSources claims.claimNamesGroups).getD "" = ""
    then none
    else some ((lookupSource claims.claimSources claims.claimNamesGroups).getD "")

/-- Modelled from the spec: the endpoint of the remote directory fetch —
the indirect source endpoint when present, else the Graph API URL. -/
def remoteEndpoint (claims : AzureClaims) : String :=
  (indirectEndpoint claims).getD (graphMemberGroupsURL claims)

/-- Modelled from the spec (section 4.4 rule 2): issue an authenticated
GET to the endpoint with the original bearer token; the group list is the
`Value` field of the response body; a non-200 response or malformed body
fails with `GroupFetchError`. -/
def fetchGroups (client : HttpClient) (endpoint bearer : String) :
    Except AzError (List String) :=
  if (client endpoint bearer).status = 200 then
    ((client endpoint bearer).value).elim (.error .GroupFetchError) Except.ok
  else .error .GroupFetchError

/-- Modelled from the spec (section 4.4, Group Resolver): rule 1 — if
`force_use_graph_api` is true, always perform the remote fetch (inline
claim groups are discarded); rule 2 — else if the claims carry an indirect
source descriptor, fetch from its endpoint; rule 3 — else use the inline
group list. -/
def extractGroups (s : SocialAzureAD) (client : HttpClient) (bearer : String)
    (claims : AzureClaims) : Except AzError (List String) :=
  if s.forceUseGraphAPI then
    fetchGroups client (remoteEndpoint claims) bearer
  else
    (indirectEndpoint claims).elim (.ok claims.groups)
      (fun e => fetchGroups client e bearer)

/-- Modelled from the spec: case-sensitive intersection test between the
resolved group list and the allow-list. -/
def intersects (xs ys : List String) : Bool :=
  xs.any (fun x => ys.contains x)

/-- Modelled from the spec (section 4.5 step 1): the `allowed_groups`
check — vacuously true when the allow-list is empty. -/
def checkAllowedGroups (s : SocialAzureAD) (groups : List String) : Bool :=
  s.allowedGroups.isEmpty || intersects groups s.allowedGroups

/-- Modelled from the spec (section 4.5 step 1): the
`allowed_organizations` check on the claims' tenant identifier —
vacuously true when the allow-list is empty. -/
def checkAllowedOrgs (s : SocialAzureAD) (tenant : String) : Bool :=
  s.allowedOrganizations.isEmpty || s.allowedOrganizations.contains tenant

/-- Modelled from the spec (section 4.6, Identity Assembler): compose the
final identity; login mirrors the effective email. -/
def assembleIdentity (claims : AzureClaims) (email role : String)
    (isGrafanaAdmin : Option Bool) (groups : List String) : BasicUserInfo :=
  { id := claims.id, name := claims.name, email := email, login := email,
    role := role, isGrafanaAdmin := isGrafanaAdmin, groups := groups }

/-- Modelled from the spec (sections 4.3-4.6): the post-verification
pipeline for one authentication attempt.  Claims extraction (effective
email) first, then group resolution, then the allow-list checks (groups,
then organizations — both before role computation), then the
role-and-admin decision, then assembly.  The pipeline short-circuits on
the first error and returns no identity. -/
def userInfo (s : SocialAzureAD) (client : HttpClient) (bearer : String)
    (claims : AzureClaims) : Except AzError BasicUserInfo :=
  if extractEmail claims = "" then .error .NoEmailError
  else
    (extractGroups s client bearer claims).bind (fun groups =>
      if checkAllowedGroups s groups then
        if checkAllowedOrgs s claims.tenantID then
          (decideRoleAndAdmin s claims.roles).bind (fun ra =>
            .ok (assembleIdentity claims (extractEmail claims) ra.1
              (if s.allowAssignGrafanaAdmin then some ra.2 else none) groups))
        else .error .OrganizationNotAllowedError
      else .error .GroupNotAllowedError)

/-- Modelled from the spec (section 6): a raw provider-configuration value —
settings arrive as a flat mapping of string keys to scalar (boolean) or
string values. -/
inductive SettingVal where
  | vBool (b : Bool)
  | vStr (s : String)
deriving Repr, DecidableEq

/-- Modelled from the spec: lookup of a key in the raw settings map,
represented as an association list. -/
def lookupSetting : List (String × SettingVal) → String → Option SettingVal
  | [], _ => none
  | (k, v) :: rest, key => if k = key then some v else lookupSetting rest key

/-- Modelled from the spec and the test file: parse of a boolean-valued
string setting; the tests supply the strings "true" and "false". -/
def parseBoolStr (s : String) : Option Bool :=
  if s = "true" then some true
  else if s = "false" then some false
  else none

/-- Modelled from the spec and the test file: coerce a raw setting to a
boolean — a native boolean is taken as is, a string is parsed, anything
else falls back to the default. -/
def mustBool (v : Option SettingVal) (d : Bool) : Bool :=
  match v with
  | some (.vBool b) => b
  | some (.vStr s) => (parseBoolStr s).getD d
  | none => d

/-- Modelled from the spec: coerce a raw setting to a string, with a
default for an absent or non-string value. -/
def mustString (v : Option SettingVal) (d : String) : String :=
  match v with
  | some (.vStr s) => s
  | _ => d

/-- Split a character list at commas (helper of `splitSetting`). -/
def splitCommaAux : List Char → List Char → List (List Char)
  | [], acc => [acc.reverse]
  | c :: rest, acc =>
      if c = ',' then acc.reverse :: splitCommaAux rest []
      else splitCommaAux rest (c :: acc)

/-- Drop leading and trailing spaces (helper of `splitSetting`; the
allow-list settings of the tests contain plain spaces only). -/
def trimSpaces (cs : List Char) : List Char :=
  ((cs.dropWhile (fun c => c = ' ')).reverse.dropWhile (fun c => c = ' ')).reverse

/-- Modelled from the spec (section 4.5 step 1): parse a comma-separated
allow-list setting — split on commas, trim surrounding spaces, drop empty
entries (so the empty setting yields the empty list). -/
def splitSetting (s : String) : List String :=
  (((splitCommaAux s.data []).map trimSpaces).map String.mk).filter
    (fun t => t ≠ "")

/-- Modelled from the spec: provider construction — derive the static
`SocialAzureAD` settings from the raw settings map and the statically
configured default organizational role (`cfg.AutoAssignOrgRole`). -/
def NewAzureADProvider (settings : List (String × SettingVal))
    (autoAssignOrgRole : String) : SocialAzureAD :=
  { allowAssignGrafanaAdmin :=
      mustBool (lookupSetting settings "allow_assign_grafana_admin") false,
    forceUseGraphAPI :=
      mustBool (lookupSetting settings "force_use_graph_api") false,
    roleAttributeStrict :=
      mustBool (lookupSetting settings "role_attribute_strict") false,
    allowedGroups :=
      splitSetting (mustString (lookupSetting settings "allowed_groups") ""),
    allowedOrganizations :=
      splitSetting (mustString (lookupSetting settings "allowed_organizations") ""),
    autoAssignOrgRole := autoAssignOrgRole }

/-- Test fixture: the base provider configuration of the test file
("azuread" with client-id only, `AutoAssignOrgRole: "Viewer"`) — every
policy flag off, no allow-lists. -/
def cfgBase : SocialAzureAD :=
  { allowAssignGrafanaAdmin := false, forceUseGraphAPI := false,
    roleAttributeStrict := false, allowedGroups := [],
    allowedOrganizations := [], autoAssignOrgRole := "Viewer" }

/-- Test fixture: the base claims of the test file (email in the email
claim, no roles, no groups). -/
def claimsBase : AzureClaims :=
  { email := "me@example.com", preferredUsername := "", roles := [],
    groups := [], name := "My Name", id := "1234", claimNamesGroups := "",
    claimSources := [], tenantID := "" }

/-- Test fixture: an HTTP client behaving like the fake group-source server
of the test file — every request is answered 200 with `Value:
["from_server"]`. -/
def serverClient : HttpClient :=
  fun _ _ => { status := 200, value := some ["from_server"] }

/-- Test fixture: an HTTP client that is never consulted on inline-group
paths; answers 200 with an empty group list. -/
def noopClient : HttpClient :=
  fun _ _ => { status := 200, value := some [] }

/-- Test fixture: an HTTP client whose every response is a server error
with a malformed body. -/
def failClient : HttpClient :=
  fun _ _ => { status := 500, value := none }

/-! ## Helper lemmas -/

theorem exceptBind_ok {α β : Type} (a : α) (f : α → Except AzError β) :
    (Except.ok a : Except AzError α).bind f = f a := rfl

theorem exceptBind_error {α β : Type} (e : AzError) (f : α → Except AzError β) :
    (Except.error e : Except AzError α).bind f = Except.error e := rfl

/-- Inversion of a successful pipeline run: `userInfo` returns an identity
exactly when every stage passes, and the identity is the assembled one. -/
theorem userInfo_ok_iff (s : SocialAzureAD) (client : HttpClient) (bearer : String)
    (claims : AzureClaims) (info : BasicUserInfo) :
    userInfo s client bearer claims = .ok info ↔
    ∃ groups role gAdmin,
      extractEmail claims ≠ "" ∧
      extractGroups s client bearer claims = .ok groups ∧
      checkAllowedGroups s groups = true ∧
      checkAllowedOrgs s claims.tenantID = true ∧
      decideRoleAndAdmin s claims.roles = .ok (role, gAdmin) ∧
      info = assembleIdentity claims (extractEmail claims) role
        (if s.allowAssignGrafanaAdmin then some gAdmin else none) groups := by
  unfold userInfo
  by_cases he : extractEmail claims = ""
  · rw [if_pos he]
    constructor
    · intro h
      exact Except.noConfusion h
    · rintro ⟨g, r, a, h1, _⟩
      exact absurd he h1
  · rw [if_neg he]
    rcases hg : extractGroups s client bearer claims with e | groups
    · rw [exceptBind_error]
      constructor
      · intro h
        exact Except.noConfusion h
      · rintro ⟨g, r, a, _, h2, _⟩
        exact Except.noConfusion h2
    · simp only [exceptBind_ok]
      by_cases hcg : checkAllowedGroups s groups = true
      · rw [if_pos hcg]
        by_cases hco : checkAllowedOrgs s claims.tenantID = true
        · rw [if_pos hco]
          rcases hr : decideRoleAndAdmin s claims.roles with e | ra
          · rw [exceptBind_error]
            constructor
            · intro h
              exact Except.noConfusion h
            · rintro ⟨g, r, a, _, _, _, _, h5, _⟩
              exact Except.noConfusion h5
          · simp only [exceptBind_ok]
            obtain ⟨role, gAdmin⟩ := ra
            constructor
            · intro h
              refine ⟨groups, role, gAdmin, he, rfl, hcg, hco, rfl, ?_⟩
              exact (Except.ok.inj h).symm
            · rintro ⟨g, r, a, _, h2, _, _, h5, h6⟩
              obtain rfl : groups = g := Except.ok.inj h2
              have h5' : (role, gAdmin) = (r, a) := Except.ok.inj h5
              obtain ⟨rfl, rfl⟩ : role = r ∧ gAdmin = a :=
                ⟨congrArg Prod.fst h5', congrArg Prod.snd h5'⟩
              exact congrArg Except.ok h6.symm
        · rw [if_neg hco]
          constructor
          · intro h
            exact Except.noConfusion h
          · rintro ⟨g, r, a, _, h2, _, h4, _⟩
            obtain rfl : groups = g := Except.ok.inj h2
            exact absurd h4 hco
      · rw [if_neg hcg]
        constructor
        · intro h
          exact Except.noConfusion h
        · rintro ⟨g, r, a, _, h2, h3, _⟩
          obtain rfl : groups = g := Except.ok.inj h2
          exact absurd h3 hcg

theorem boolFalse {b : Bool} (h : ¬ b = true) : b = false := by
  cases hb : b
  · rfl
  · exact absurd hb h

/-- With a non-empty effective email the pipeline reduces to the
group-resolution / policy / role tail. -/
theorem userInfo_tail (s : SocialAzureAD) (client : HttpClient) (bearer : String)
    (claims : AzureClaims) (he : extractEmail claims ≠ "") :
    userInfo s client bearer claims =
      (extractGroups s client bearer claims).bind (fun groups =>
        if checkAllowedGroups s groups then
          if checkAllowedOrgs s claims.tenantID then
            (decideRoleAndAdmin s claims.roles).bind (fun ra =>
              .ok (assembleIdentity claims (extractEmail claims) ra.1
                (if s.allowAssignGrafanaAdmin then some ra.2 else none) groups))
          else .error .OrganizationNotAllowedError
        else .error .GroupNotAllowedError) := by
  unfold userInfo
  rw [if_neg he]

theorem userInfo_groupFetchFail (s : SocialAzureAD) (client : HttpClient)
    (bearer : String) (claims : AzureClaims) (e : AzError)
    (he : extractEmail claims ≠ "")
    (hg : extractGroups s client bearer claims = .error e) :
    userInfo s client bearer claims = .error e := by
  rw [userInfo_tail s client bearer claims he, hg, exceptBind_error]

theorem userInfo_groupNotAllowed (s : SocialAzureAD) (client : HttpClient)
    (bearer : String) (claims : AzureClaims) (groups : List String)
    (he : extractEmail claims ≠ "")
    (hg : extractGroups s client bearer claims = .ok groups)
    (hcg : ¬ checkAllowedGroups s groups = true) :
    userInfo s client bearer claims = .error .GroupNotAllowedError := by
  rw [userInfo_tail s client bearer claims he, hg]
  simp only [exceptBind_ok]
  rw [if_neg hcg]

theorem userInfo_orgNotAllowed (s : SocialAzureAD) (client : HttpClient)
    (bearer : String) (claims : AzureClaims) (groups : List String)
    (he : extractEmail claims ≠ "")
    (hg : extractGroups s client bearer claims = .ok groups)
    (hcg : checkAllowedGroups s groups = true)
    (hco : ¬ checkAllowedOrgs s claims.tenantID = true) :
    userInfo s client bearer claims = .error .OrganizationNotAllowedError := by
  rw [userInfo_tail s client bearer claims he, hg]
  simp only [exceptBind_ok]
  rw [if_pos hcg, if_neg hco]

theorem userInfo_roleFail (s : SocialAzureAD) (client : HttpClient)
    (bearer : String) (claims : AzureClaims) (groups : List String) (e : AzError)
    (he : extractEmail claims ≠ "")
    (hg : extractGroups s client bearer claims = .ok groups)
    (hcg : checkAllowedGroups s groups = true)
    (hco : checkAllowedOrgs s claims.tenantID = true)
    (hr : decideRoleAndAdmin s claims.roles = .error e) :
    userInfo s client bearer claims = .error e := by
  rw [userInfo_tail s client bearer claims he, hg]
  simp only [exceptBind_ok]
  rw [if_pos hcg, if_pos hco, hr, exceptBind_error]

theorem roleAndAdmin_of_grafanaAdmin (roles : List String)
    (h : hasRole roles "GrafanaAdmin" = true) :
    roleAndAdminFromClaims roles = some ("Admin", true) := by
  unfold roleAndAdminFromClaims
  rw [if_pos h]

theorem grafanaAdmin_false_of_none (roles : List String)
    (h : roleAndAdminFromClaims roles = none) :
    hasRole roles "GrafanaAdmin" = false := by
  cases hh : hasRole roles "GrafanaAdmin"
  · rfl
  · rw [roleAndAdmin_of_grafanaAdmin roles hh] at h
    exact Option.noConfusion h

theorem roleAndAdmin_snd (roles : List String) (role : String) (gAdmin : Bool)
    (h : roleAndAdminFromClaims roles = some (role, gAdmin)) :
    gAdmin = hasRole roles "GrafanaAdmin" := by
  unfold roleAndAdminFromClaims at h
  by_cases h1 : hasRole roles "GrafanaAdmin" = true
  · rw [if_pos h1] at h
    rw [h1]
    exact (congrArg Prod.snd (Option.some.inj h)).symm
  · rw [if_neg h1] at h
    rw [boolFalse h1]
    by_cases h2 : hasRole roles "Admin" = true
    · rw [if_pos h2] at h
      exact (congrArg Prod.snd (Option.some.inj h)).symm
    · rw [if_neg h2] at h
      by_cases h3 : hasRole roles "Editor" = true
      · rw [if_pos h3] at h
        exact (congrArg Prod.snd (Option.some.inj h)).symm
      · rw [if_neg h3] at h
        by_cases h4 : hasRole roles "Viewer" = true
        · rw [if_pos h4] at h
          exact (congrArg Prod.snd (Option.some.inj h)).symm
        · rw [if_neg h4] at h
          exact Option.noConfusion h

theorem decideRole_of_some (s : SocialAzureAD) (roles : List String)
    (ra : String × Bool) (h : roleAndAdminFromClaims roles = some ra) :
    decideRoleAndAdmin s roles = .ok ra := by
  unfold decideRoleAndAdmin
  rw [h]
  rfl

theorem decideRole_of_none_strict (s : SocialAzureAD) (roles : List String)
    (h : roleAndAdminFromClaims roles = none)
    (hst : s.roleAttributeStrict = true) :
    decideRoleAndAdmin s roles = .error .NoMatchingRoleError := by
  unfold decideRoleAndAdmin
  rw [h, hst]
  rfl

theorem decideRole_of_none_lax (s : SocialAzureAD) (roles : List String)
    (h : roleAndAdminFromClaims roles = none)
    (hst : s.roleAttributeStrict = false) :
    decideRoleAndAdmin s roles = .ok (s.autoAssignOrgRole, false) := by
  unfold decideRoleAndAdmin
  rw [h, hst]
  rfl

theorem decideRole_snd (s : SocialAzureAD) (roles : List String)
    (role : String) (gAdmin : Bool)
    (h : decideRoleAndAdmin s roles = .ok (role, gAdmin)) :
    gAdmin = hasRole roles "GrafanaAdmin" := by
  rcases hr : roleAndAdminFromClaims roles with _ | ra
  · have hga := grafanaAdmin_false_of_none roles hr
    rw [hga]
    by_cases hst : s.roleAttributeStrict = true
    · rw [decideRole_of_none_strict s roles hr hst] at h
      exact Except.noConfusion h
    · rw [decideRole_of_none_lax s roles hr (boolFalse hst)] at h
      exact (congrArg Prod.snd (Except.ok.inj h)).symm
  · rw [decideRole_of_some s roles ra hr] at h
    obtain rfl : ra = (role, gAdmin) := Except.ok.inj h
    exact roleAndAdmin_snd roles role gAdmin hr

theorem boolNotTrue {b : Bool} (h : b = false) : ¬ b = true := by
  rw [h]
  decide

/-- C1 (counterexample): with role claims `["GrafanaAdmin", "Editor"]` — the
scenario of the test "Grafana Admin and Editor roles in claim" — the
pipeline returns the organizational role `Admin`, not the accompanying
recognised role `Editor` as the claim states. -/
theorem c1_counterexample :
    userInfo { cfgBase with allowAssignGrafanaAdmin := true } noopClient "tok"
      { claimsBase with roles := ["GrafanaAdmin", "Editor"] } =
      .ok { id := "1234", name := "My Name", email := "me@example.com",
            login := "me@example.com", role := "Admin",
            isGrafanaAdmin := some true, groups := [] } ∧
    ("Admin" : String) ≠ "Editor" :=
  ⟨rfl, by decide⟩

/-- C1 (amended): whenever `GrafanaAdmin` appears among the role claims —
in particular alongside another recognised role — the organizational role
is `Admin` (GrafanaAdmin maps to the Admin org role rather than yielding to
the accompanying role), and GrafanaAdmin separately triggers the
admin-elevation consideration: the elevation flag is true and is surfaced
exactly when `allow_assign_grafana_admin` is set. -/
theorem c1_grafana_admin_dominates (s : SocialAzureAD) (client : HttpClient)
    (bearer : String) (claims : AzureClaims)
    (h : hasRole claims.roles "GrafanaAdmin" = true) :
    decideRoleAndAdmin s claims.roles = .ok ("Admin", true) ∧
    ∀ info, userInfo s client bearer claims = .ok info →
      info.role = "Admin" ∧
      info.isGrafanaAdmin =
        (if s.allowAssignGrafanaAdmin then some true else none) := by
  have hra := roleAndAdmin_of_grafanaAdmin claims.roles h
  have hd := decideRole_of_some s claims.roles _ hra
  refine ⟨hd, ?_⟩
  intro info hinfo
  rw [userInfo_ok_iff] at hinfo
  obtain ⟨groups, role, gAdmin, he, hg, hcg, hco, hr, hass⟩ := hinfo
  rw [hd] at hr
  have hpair : ("Admin", true) = (role, gAdmin) := Except.ok.inj hr
  obtain ⟨hrole, hgad⟩ : role = "Admin" ∧ gAdmin = true :=
    ⟨(congrArg Prod.fst hpair).symm, (congrArg Prod.snd hpair).symm⟩
  subst hrole hgad
  rw [hass]
  exact ⟨rfl, rfl⟩

/-- C1 witness: the amended theorem at the input of the test "Grafana Admin
and Editor roles in claim". -/
theorem c1_witness :
    decideRoleAndAdmin { cfgBase with allowAssignGrafanaAdmin := true }
      ({ claimsBase with roles := ["GrafanaAdmin", "Editor"] } : AzureClaims).roles =
      .ok ("Admin", true) :=
  (c1_grafana_admin_dominates { cfgBase with allowAssignGrafanaAdmin := true }
    noopClient "tok" { claimsBase with roles := ["GrafanaAdmin", "Editor"] }
    (by decide)).1

/-- C2: the effective email prefers the email field and falls back to
preferred-username; with both empty the pipeline fails with `NoEmailError`
and returns no identity; a returned identity's Login equals its Email,
which is the effective email. -/
theorem c2_effective_email (s : SocialAzureAD) (client : HttpClient)
    (bearer : String) (claims : AzureClaims) :
    (claims.email ≠ "" → extractEmail claims = claims.email) ∧
    (claims.email = "" → extractEmail claims = claims.preferredUsername) ∧
    (claims.email = "" → claims.preferredUsername = "" →
      userInfo s client bearer claims = .error .NoEmailError) ∧
    (∀ info, userInfo s client bearer claims = .ok info →
      info.login = info.email ∧ info.email = extractEmail claims) := by
  refine ⟨?_, ?_, ?_, ?_⟩
  · intro h
    unfold extractEmail
    rw [if_neg h]
  · intro h
    unfold extractEmail
    rw [if_pos h]
  · intro h1 h2
    have he : extractEmail claims = "" := by
      unfold extractEmail
      rw [if_pos h1]
      exact h2
    unfold userInfo
    rw [if_pos he]
  · intro info hinfo
    rw [userInfo_ok_iff] at hinfo
    obtain ⟨groups, role, gAdmin, he, hg, hcg, hco, hr, hass⟩ := hinfo
    rw [hass]
    exact ⟨rfl, rfl⟩

/-- C2 witness: the no-email test input fails with `NoEmailError`. -/
theorem c2_witness :
    userInfo cfgBase noopClient "tok"
      { claimsBase with email := "", preferredUsername := "" } =
      .error .NoEmailError :=
  (c2_effective_email cfgBase noopClient "tok"
    { claimsBase with email := "", preferredUsername := "" }).2.2.1 rfl rfl

/-- C3: for role lists without a GrafanaAdmin claim, the role scan is
case-insensitive and picks the highest recognised role in priority order
Admin > Editor > Viewer; the outcome depends only on case-insensitive
membership, hence is independent of list order; the claim's concrete
examples (`["Editor","Admin"]`, `["Admin","Editor"]`, `["admin"]`)
evaluate as stated. -/
theorem c3_role_priority (roles : List String)
    (hga : hasRole roles "GrafanaAdmin" = false) :
    (hasRole roles "Admin" = true →
      roleAndAdminFromClaims roles = some ("Admin", false)) ∧
    (hasRole roles "Admin" = false → hasRole roles "Editor" = true →
      roleAndAdminFromClaims roles = some ("Editor", false)) ∧
    (hasRole roles "Admin" = false → hasRole roles "Editor" = false →
      hasRole roles "Viewer" = true →
      roleAndAdminFromClaims roles = some ("Viewer", false)) ∧
    (∀ roles2, (∀ r, hasRole roles2 r = hasRole roles r) →
      roleAndAdminFromClaims roles2 = roleAndAdminFromClaims roles) ∧
    roleAndAdminFromClaims ["Editor", "Admin"] = some ("Admin", false) ∧
    roleAndAdminFromClaims ["Admin", "Editor"] = some ("Admin", false) ∧
    roleAndAdminFromClaims ["admin"] = some ("Admin", false) := by
  refine ⟨?_, ?_, ?_, ?_, by decide, by decide, by decide⟩
  · intro h
    unfold roleAndAdminFromClaims
    rw [if_neg (boolNotTrue hga), if_pos h]
  · intro h1 h2
    unfold roleAndAdminFromClaims
    rw [if_neg (boolNotTrue hga), if_neg (boolNotTrue h1), if_pos h2]
  · intro h1 h2 h3
    unfold roleAndAdminFromClaims
    rw [if_neg (boolNotTrue hga), if_neg (boolNotTrue h1),
      if_neg (boolNotTrue h2), if_pos h3]
  · intro roles2 hsame
    simp only [roleAndAdminFromClaims, hsame]

/-- C3 witness: the priority scan at `["Editor", "Admin"]` yields Admin. -/
theorem c3_witness :
    roleAndAdminFromClaims ["Editor", "Admin"] = some ("Admin", false) :=
  (c3_role_priority ["Editor", "Admin"] (by decide)).1 (by decide)

/-- C4: when the role list is empty or contains no recognised role value
(the scan yields none): under strict mode the attempt always fails — no
identity is ever returned, and once the earlier stages pass, the error is
`NoMatchingRoleError` — while under non-strict mode any returned identity
carries the statically configured default organizational role. -/
theorem c4_strict_or_default (s : SocialAzureAD) (client : HttpClient)
    (bearer : String) (claims : AzureClaims)
    (hnone : roleAndAdminFromClaims claims.roles = none) :
    (s.roleAttributeStrict = true →
      ∀ info, userInfo s client bearer claims ≠ .ok info) ∧
    (s.roleAttributeStrict = true → extractEmail claims ≠ "" →
      ∀ groups, extractGroups s client bearer claims = .ok groups →
        checkAllowedGroups s groups = true →
        checkAllowedOrgs s claims.tenantID = true →
        userInfo s client bearer claims = .error .NoMatchingRoleError) ∧
    (s.roleAttributeStrict = false →
      ∀ info, userInfo s client bearer claims = .ok info →
        info.role = s.autoAssignOrgRole) := by
  refine ⟨?_, ?_, ?_⟩
  · intro hst info hok
    rw [userInfo_ok_iff] at hok
    obtain ⟨groups, role, gAdmin, he, hg, hcg, hco, hr, hass⟩ := hok
    rw [decideRole_of_none_strict s claims.roles hnone hst] at hr
    exact Except.noConfusion hr
  · intro hst he groups hg hcg hco
    exact userInfo_roleFail s client bearer claims groups _ he hg hcg hco
      (decideRole_of_none_strict s claims.roles hnone hst)
  · intro hst info hok
    rw [userInfo_ok_iff] at hok
    obtain ⟨groups, role, gAdmin, he, hg, hcg, hco, hr, hass⟩ := hok
    rw [decideRole_of_none_lax s claims.roles hnone hst] at hr
    have hpair : (s.autoAssignOrgRole, false) = (role, gAdmin) := Except.ok.inj hr
    have hrole : role = s.autoAssignOrgRole := (congrArg Prod.fst hpair).symm
    rw [hass, hrole]
    rfl

/-- C4 witness: strict mode with the unrecognised role list `["foo"]` fails
with `NoMatchingRoleError` (the input of the test "Fetch empty role when
strict attribute role is true and no match"). -/
theorem c4_witness :
    userInfo
      { cfgBase with
        roleAttributeStrict := true, autoAssignOrgRole := "" }
      noopClient "tok" { claimsBase with roles := ["foo"] } =
      .error .NoMatchingRoleError :=
  (c4_strict_or_default
    { cfgBase with
      roleAttributeStrict := true, autoAssignOrgRole := "" }
    noopClient "tok" { claimsBase with roles := ["foo"] }
    (by decide)).2.1 rfl (by decide) [] rfl rfl rfl

/-- C5: for a returned identity, when `allow_assign_grafana_admin` is true
the admin tri-state is explicit `some` — true exactly when GrafanaAdmin is
among the role claims, false otherwise — and when the setting is false the
tri-state is `none` (unset), even if GrafanaAdmin is present. -/
theorem c5_admin_tristate (s : SocialAzureAD) (client : HttpClient)
    (bearer : String) (claims : AzureClaims) (info : BasicUserInfo)
    (h : userInfo s client bearer claims = .ok info) :
    (s.allowAssignGrafanaAdmin = true →
      info.isGrafanaAdmin = some (hasRole claims.roles "GrafanaAdmin")) ∧
    (s.allowAssignGrafanaAdmin = false → info.isGrafanaAdmin = none) := by
  rw [userInfo_ok_iff] at h
  obtain ⟨groups, role, gAdmin, he, hg, hcg, hco, hr, hass⟩ := h
  have hsnd := decideRole_snd s claims.roles role gAdmin hr
  constructor
  · intro hal
    rw [hass]
    show (if s.allowAssignGrafanaAdmin then some gAdmin else none) = _
    rw [if_pos hal, hsnd]
  · intro hal
    rw [hass]
    show (if s.allowAssignGrafanaAdmin then some gAdmin else none) = none
    rw [if_neg (boolNotTrue hal)]

/-- C5 witness: with assignment enabled and role claims `["Editor"]` the
tri-state is explicitly `some false` (test "Editor roles in claim and
GrafanaAdminAssignment enabled"). -/
theorem c5_witness :
    ({ id := "1234", name := "My Name", email := "me@example.com",
       login := "me@example.com", role := "Editor",
       isGrafanaAdmin := some false, groups := [] } : BasicUserInfo).isGrafanaAdmin =
      some (hasRole ["Editor"] "GrafanaAdmin") :=
  (c5_admin_tristate { cfgBase with allowAssignGrafanaAdmin := true }
    noopClient "tok" { claimsBase with roles := ["Editor"] }
    { id := "1234", name := "My Name", email := "me@example.com",
      login := "me@example.com", role := "Editor",
      isGrafanaAdmin := some false, groups := [] } rfl).1 rfl

/-- C6: with `force_use_graph_api` set, group resolution is the remote
fetch; the inline group list is ignored entirely — replacing it changes
nothing, descriptor present or not — and a returned identity's groups are
exactly the remotely fetched list. -/
theorem c6_force_graph_api (s : SocialAzureAD) (client : HttpClient)
    (bearer : String) (claims : AzureClaims)
    (hf : s.forceUseGraphAPI = true) :
    extractGroups s client bearer claims =
      fetchGroups client (remoteEndpoint claims) bearer ∧
    (∀ gs, extractGroups s client bearer { claims with groups := gs } =
      extractGroups s client bearer claims) ∧
    (∀ info, userInfo s client bearer claims = .ok info →
      fetchGroups client (remoteEndpoint claims) bearer = .ok info.groups) := by
  have hx : ∀ cl : AzureClaims, extractGroups s client bearer cl =
      fetchGroups client (remoteEndpoint cl) bearer := by
    intro cl
    unfold extractGroups
    rw [if_pos hf]
  refine ⟨hx claims, ?_, ?_⟩
  · intro gs
    rw [hx, hx]
    rfl
  · intro info hok
    rw [userInfo_ok_iff] at hok
    obtain ⟨groups, role, gAdmin, he, hg, hcg, hco, hr, hass⟩ := hok
    rw [hass, ← hx claims, hg]
    rfl

/-- C6 witness: the forced-fetch test input — inline groups and a
descriptor both present — resolves through the remote fetch. -/
theorem c6_witness :
    extractGroups { cfgBase with forceUseGraphAPI := true } serverClient "tok"
      { claimsBase with
        groups := ["foo", "bar"], claimNamesGroups := "src1",
        claimSources := [("src1", "http://server")] } =
      fetchGroups serverClient
        (remoteEndpoint
          { claimsBase with
            groups := ["foo", "bar"], claimNamesGroups := "src1",
            claimSources := [("src1", "http://server")] }) "tok" :=
  (c6_force_graph_api { cfgBase with forceUseGraphAPI := true } serverClient "tok"
    { claimsBase with
      groups := ["foo", "bar"], claimNamesGroups := "src1",
      claimSources := [("src1", "http://server")] } rfl).1

/-- C7: without forced Graph API use, when the claims carry an indirect
source descriptor for groups, resolution is the authenticated GET to the
descriptor's endpoint with the bearer token (the response consulted is the
client's answer for exactly that endpoint and token); on a 200 response the
group list is the parsed `Value` field; a non-200 response or a malformed
body yields `GroupFetchError`, which fails the attempt. -/
theorem c7_indirect_source (s : SocialAzureAD) (client : HttpClient)
    (bearer : String) (claims : AzureClaims) (endpoint : String)
    (hf : s.forceUseGraphAPI = false)
    (he : indirectEndpoint claims = some endpoint) :
    extractGroups s client bearer claims = fetchGroups client endpoint bearer ∧
    (∀ gs, (client endpoint bearer).status = 200 →
      (client endpoint bearer).value = some gs →
      extractGroups s client bearer claims = .ok gs) ∧
    ((client endpoint bearer).status ≠ 200 ∨ (client endpoint bearer).value = none →
      extractGroups s client bearer claims = .error .GroupFetchError) ∧
    ((client endpoint bearer).status ≠ 200 ∨ (client endpoint bearer).value = none →
      extractEmail claims ≠ "" →
      userInfo s client bearer claims = .error .GroupFetchError) := by
  have hx : extractGroups s client bearer claims =
      fetchGroups client endpoint bearer := by
    unfold extractGroups
    rw [if_neg (boolNotTrue hf), he]
    rfl
  have hfetch_err :
      (client endpoint bearer).status ≠ 200 ∨ (client endpoint bearer).value = none →
      fetchGroups client endpoint bearer = .error .GroupFetchError := by
    intro hbad
    unfold fetchGroups
    rcases hbad with hbad | hbad
    · rw [if_neg hbad]
    · by_cases h200 : (client endpoint bearer).status = 200
      · rw [if_pos h200, hbad]
        rfl
      · rw [if_neg h200]
  refine ⟨hx, ?_, ?_, ?_⟩
  · intro gs h200 hval
    rw [hx]
    unfold fetchGroups
    rw [if_pos h200, hval]
    rfl
  · intro hbad
    rw [hx]
    exact hfetch_err hbad
  · intro hbad hemail
    exact userInfo_groupFetchFail s client bearer claims _ hemail
      (hx.trans (hfetch_err hbad))

/-- C7 witness: a failing group-source server (500, malformed body) fails
the attempt with `GroupFetchError`. -/
theorem c7_witness :
    userInfo cfgBase failClient "tok"
      { claimsBase with
        claimNamesGroups := "src1",
        claimSources := [("src1", "http://server")] } =
      .error .GroupFetchError :=
  (c7_indirect_source cfgBase failClient "tok"
    { claimsBase with
      claimNamesGroups := "src1",
      claimSources := [("src1", "http://server")] } "http://server" rfl rfl).2.2.2
    (Or.inl (by decide)) (by decide)

theorem decideRole_error_eq (s : SocialAzureAD) (roles : List String) (e : AzError)
    (h : decideRoleAndAdmin s roles = .error e) : e = .NoMatchingRoleError := by
  rcases hr : roleAndAdminFromClaims roles with _ | ra
  · by_cases hst : s.roleAttributeStrict = true
    · rw [decideRole_of_none_strict s roles hr hst] at h
      exact (Except.error.inj h).symm
    · rw [decideRole_of_none_lax s roles hr (boolFalse hst)] at h
      exact Except.noConfusion h
  · rw [decideRole_of_some s roles ra hr] at h
    exact Except.noConfusion h

/-- C8: with a non-empty `allowed_groups` allow-list, an attempt whose
resolved group list has no (case-sensitive) element in common with the
allow-list fails with `GroupNotAllowedError` — for every role list and
strict-mode setting, so regardless of the role outcome — while
intersecting lists are never failed by this check; and the allow-list of a
constructed provider is the raw setting trimmed and split on commas. -/
theorem c8_allowed_groups (s : SocialAzureAD) (client : HttpClient)
    (bearer : String) (claims : AzureClaims) (groups : List String)
    (hne : s.allowedGroups ≠ [])
    (he : extractEmail claims ≠ "")
    (hg : extractGroups s client bearer claims = .ok groups) :
    (intersects groups s.allowedGroups = false →
      userInfo s client bearer claims = .error .GroupNotAllowedError) ∧
    (intersects groups s.allowedGroups = true →
      userInfo s client bearer claims ≠ .error .GroupNotAllowedError) ∧
    (∀ settings d, (NewAzureADProvider settings d).allowedGroups =
      splitSetting (mustString (lookupSetting settings "allowed_groups") "")) := by
  have hemp : s.allowedGroups.isEmpty = false := by
    cases hl : s.allowedGroups
    · exact absurd hl hne
    · rfl
  refine ⟨?_, ?_, ?_⟩
  · intro hint
    apply userInfo_groupNotAllowed s client bearer claims groups he hg
    unfold checkAllowedGroups
    rw [hemp, hint]
    decide
  · intro hint hbad
    have hcg : checkAllowedGroups s groups = true := by
      unfold checkAllowedGroups
      rw [hint]
      exact Bool.or_true _
    by_cases hco : checkAllowedOrgs s claims.tenantID = true
    · rcases hr : decideRoleAndAdmin s claims.roles with e | ra
      · rw [userInfo_roleFail s client bearer claims groups e he hg hcg hco hr,
          decideRole_error_eq s claims.roles e hr] at hbad
        exact AzError.noConfusion (Except.error.inj hbad)
      · obtain ⟨role, gAdmin⟩ := ra
        rw [(userInfo_ok_iff s client bearer claims _).mpr
          ⟨groups, role, gAdmin, he, hg, hcg, hco, hr, rfl⟩] at hbad
        exact Except.noConfusion hbad
    · rw [userInfo_orgNotAllowed s client bearer claims groups he hg hcg hco] at hbad
      exact AzError.noConfusion (Except.error.inj hbad)
  · intro settings d
    rfl

/-- C8 witness: the allow-list `["dead-beef"]` against resolved groups
`["foo", "bar"]` fails with `GroupNotAllowedError` (test "Error if user is
not a member of allowed_groups"). -/
theorem c8_witness :
    userInfo { cfgBase with allowedGroups := ["dead-beef"] } noopClient "tok"
      { claimsBase with groups := ["foo", "bar"] } =
      .error .GroupNotAllowedError :=
  (c8_allowed_groups { cfgBase with allowedGroups := ["dead-beef"] } noopClient
    "tok" { claimsBase with groups := ["foo", "bar"] } ["foo", "bar"]
    (by decide) (by decide) rfl).1 rfl

/-- C9: with a non-empty `allowed_organizations` allow-list, an attempt
whose tenant identifier is not a member fails with
`OrganizationNotAllowedError` — for every role list and strict-mode
setting, i.e. the check is decided before role computation — and an
attempt whose tenant is a member is never failed by this check. -/
theorem c9_allowed_orgs (s : SocialAzureAD) (client : HttpClient)
    (bearer : String) (claims : AzureClaims) (groups : List String)
    (hne : s.allowedOrganizations ≠ [])
    (he : extractEmail claims ≠ "")
    (hg : extractGroups s client bearer claims = .ok groups)
    (hcg : checkAllowedGroups s groups = true) :
    (s.allowedOrganizations.contains claims.tenantID = false →
      userInfo s client bearer claims = .error .OrganizationNotAllowedError) ∧
    (s.allowedOrganizations.contains claims.tenantID = true →
      userInfo s client bearer claims ≠ .error .OrganizationNotAllowedError) := by
  have hemp : s.allowedOrganizations.isEmpty = false := by
    cases hl : s.allowedOrganizations
    · exact absurd hl hne
    · rfl
  constructor
  · intro hmem
    apply userInfo_orgNotAllowed s client bearer claims groups he hg hcg
    unfold checkAllowedOrgs
    rw [hemp, hmem]
    decide
  · intro hmem hbad
    have hco : checkAllowedOrgs s claims.tenantID = true := by
      unfold checkAllowedOrgs
      rw [hmem]
      exact Bool.or_true _
    rcases hr : decideRoleAndAdmin s claims.roles with e | ra
    · rw [userInfo_roleFail s client bearer claims groups e he hg hcg hco hr,
        decideRole_error_eq s claims.roles e hr] at hbad
      exact AzError.noConfusion (Except.error.inj hbad)
    · obtain ⟨role, gAdmin⟩ := ra
      rw [(userInfo_ok_iff s client bearer claims _).mpr
        ⟨groups, role, gAdmin, he, hg, hcg, hco, hr, rfl⟩] at hbad
      exact Except.noConfusion hbad

/-- C9 witness: tenant `uuid-5678` against the allow-list `["uuid-1234"]`
fails with `OrganizationNotAllowedError` (test "Error if user is not a
member of allowed_organizations"). -/
theorem c9_witness :
    userInfo { cfgBase with allowedOrganizations := ["uuid-1234"] } noopClient
      "tok" { claimsBase with groups := ["foo", "bar"], tenantID := "uuid-5678" } =
      .error .OrganizationNotAllowedError :=
  (c9_allowed_orgs { cfgBase with allowedOrganizations := ["uuid-1234"] }
    noopClient "tok"
    { claimsBase with groups := ["foo", "bar"], tenantID := "uuid-5678" }
    ["foo", "bar"] (by decide) (by decide) rfl rfl).1 rfl

/-- C10: provider construction accepts boolean settings as native booleans
or as the strings "true"/"false": a boolean `b` and its string rendering
derive the same provider; `force_use_graph_api` given as the string "true"
enables the forced fetch exactly as the boolean true does; the derived
`allowed_organizations` splits deterministically on commas (test
`TestSocialAzureAD_InitializeExtraFields`). -/
theorem c10_bool_settings (d : String) (b : Bool)
    (rest : List (String × SettingVal)) :
    (NewAzureADProvider
        (("allow_assign_grafana_admin", SettingVal.vBool b) :: rest) d =
      NewAzureADProvider
        (("allow_assign_grafana_admin",
          SettingVal.vStr (if b then "true" else "false")) :: rest) d) ∧
    ((NewAzureADProvider
        (("force_use_graph_api", SettingVal.vStr "true") :: rest) d).forceUseGraphAPI =
      (NewAzureADProvider
        (("force_use_graph_api", SettingVal.vBool true) :: rest) d).forceUseGraphAPI) ∧
    (NewAzureADProvider
      [("force_use_graph_api", SettingVal.vStr "true")] d).forceUseGraphAPI = true ∧
    (NewAzureADProvider
      [("allowed_organizations", SettingVal.vStr "uuid-1234,uuid-5678")]
      d).allowedOrganizations = ["uuid-1234", "uuid-5678"] := by
  refine ⟨?_, rfl, rfl, rfl⟩
  cases b <;> rfl
